import Mathlib

/-!
Shallow embedding of the Flask backend in MONITORING.py.

The backend exposes two POST handlers, tiles and timeseries, that read a JSON
body, check module-level Earth-Engine flags, parse optional integer fields with
the Python int() builtin, and build a filtered image-collection query that is
executed remotely.  The remote service is modelled as an oracle (a record of
functions); each handler returns the HTTP outcome, the list of queries it
issued to the oracle, and the module-level state after the request.
-/

namespace MONITORING

/-- JSON values as sent in request and response bodies.  JSON numbers are
split into integers and general rationals so that the Python int() builtin
can be modelled faithfully. -/
inductive JsonVal where
  | null
  | bool (b : Bool)
  | int (n : Int)
  | num (q : Rat)
  | str (s : String)
  | arr (xs : List JsonVal)
  | obj (fields : List (String × JsonVal))

/-- Python truthiness of a JSON value, as used by the source in
tests such as: if not geom, and: if start and end. -/
def truthy : JsonVal → Bool
  | .null => false
  | .bool b => b
  | .int n => !(n == 0)
  | .num q => !(q == 0)
  | .str s => !(s == "")
  | .arr xs => !xs.isEmpty
  | .obj fs => !fs.isEmpty

/-- Accumulator pass over a decimal digit string, failing on a non-digit. -/
def parseDigitsAux : List Char → Nat → Option Nat
  | [], acc => some acc
  | c :: cs, acc =>
    if c.isDigit then parseDigitsAux cs (acc * 10 + (c.toNat - 48)) else none

/-- Python whitespace stripped by the int() builtin around a string literal. -/
def isPySpace (c : Char) : Bool :=
  c == ' ' || c == '\t' || c == '\n' || c == '\r'

/-- Parse a string the way the Python int() builtin does: optional surrounding
whitespace, an optional sign, then one or more decimal digits. -/
def pyStrToInt (s : String) : Option Int :=
  let cs := ((s.data.dropWhile isPySpace).reverse.dropWhile isPySpace).reverse
  match cs with
  | [] => none
  | '-' :: rest =>
    match rest with
    | [] => none
    | _ => (parseDigitsAux rest 0).map (fun n => -(n : Int))
  | '+' :: rest =>
    match rest with
    | [] => none
    | _ => (parseDigitsAux rest 0).map (fun n => (n : Int))
  | _ => (parseDigitsAux cs 0).map (fun n => (n : Int))

/-- The Python int() builtin on a JSON value: succeeds on booleans, integers,
finite numbers (truncating toward zero) and well-formed decimal strings;
raises (modelled as Except.error) on everything else. -/
def pyInt : JsonVal → Except String Int
  | .int n => .ok n
  | .bool b => .ok (if b then 1 else 0)
  | .num q => .ok ((q.num).tdiv (q.den : Int))
  | .str s =>
    match pyStrToInt s with
    | some n => .ok n
    | none => .error ("invalid literal for int() with base 10: " ++ s)
  | .null => .error "int() argument must be a string or a real number, not NoneType"
  | .arr _ => .error "int() argument must be a string or a real number, not list"
  | .obj _ => .error "int() argument must be a string or a real number, not dict"

/-- Uppercase a string, ASCII-wise, as the Python str.upper method does on the
layer names used here. -/
def upperStr (s : String) : String :=
  String.mk (s.data.map Char.toUpper)

/-- The Python expression layer.upper(): succeeds on strings, raises
AttributeError on any other JSON value. -/
def pyUpper : JsonVal → Except String String
  | .str s => .ok (upperStr s)
  | _ => .error "AttributeError: object has no attribute upper"

/-- Python str() of an Optional string: None prints as the word None.  Used for
the f-string interpolation of EE_INIT_ERROR. -/
def pyStrOpt : Option String → String
  | none => "None"
  | some s => s

/-- Lookup in a JSON request body (a Python dict), as data.get(key). -/
def jget (data : List (String × JsonVal)) (key : String) : Option JsonVal :=
  (data.find? (fun kv => kv.1 == key)).map (fun kv => kv.2)

/-- Lookup with a default, as data.get(key, default). -/
def jgetD (data : List (String × JsonVal)) (key : String) (dflt : JsonVal) : JsonVal :=
  (jget data key).getD dflt

/-- Field access on a JSON object value. -/
def jfield : JsonVal → String → Option JsonVal
  | .obj fs, k => (fs.find? (fun kv => kv.1 == k)).map (fun kv => kv.2)
  | _, _ => none

/-- Module-level state of MONITORING.py: the Earth-Engine flags and the
process environment (os.environ). -/
structure EEEnv where
  EE_AVAILABLE : Bool
  EE_INITIALIZED : Bool
  EE_INIT_ERROR : Option String
  osEnv : String → Option String

/-- Outcome of one request: an HTTP response with a JSON body, or an exception
that escapes the handler (left to the web framework's default error page). -/
inductive HandlerResult where
  | response (code : Nat) (body : JsonVal)
  | uncaught (msg : String)

/-- The jsonify error envelope used by every handled failure. -/
def errBody (msg : String) : JsonVal :=
  .obj [("status", .str "error"), ("error", .str msg)]

/-- The jsonify success body of the tiles handler. -/
def okTile (url : String) : JsonVal :=
  .obj [("status", .str "ok"), ("tile_url", .str url)]

/-- The jsonify success body of the timeseries handler. -/
def okSeries (series : List JsonVal) : JsonVal :=
  .obj [("status", .str "ok"), ("series", .arr series)]

/-- The imagery collection id, read from the environment with its default, as
os.environ.get of EE_S2_COLLECTION. -/
def collectionId (env : EEEnv) : String :=
  (env.osEnv "EE_S2_COLLECTION").getD "COPERNICUS/S2_SR_HARMONIZED"

/-- The server-side query built by the tiles handler: region, clip buffer,
collection, optional date filter, cloud-cover threshold, and which composite
branch (NDVI or RGB) was selected. -/
structure TilesQuery where
  geometry : JsonVal
  bufferMeters : Int
  collId : String
  dateFilter : Option (JsonVal × JsonVal)
  cloudThreshold : Int
  ndvi : Bool

/-- The remote Earth-Engine service as seen by the tiles handler: geometry
construction (ee.Geometry, buffer, bounds) may raise, and getMapId may raise. -/
structure TilesEE where
  geomBuild : JsonVal → Int → Except String Unit
  getMapId : TilesQuery → Except String String

/-- The query the tiles handler issues, assembled from the request body and the
already-parsed integer fields. -/
def tilesQuery (env : EEEnv) (data : List (String × JsonVal))
    (cloudThreshold bufferMeters : Int) (ndvi : Bool) : TilesQuery :=
  { geometry := jgetD data "geometry" .null
    bufferMeters := bufferMeters
    collId := collectionId env
    dateFilter :=
      if truthy (jgetD data "start" .null) && truthy (jgetD data "end" .null) then
        some (jgetD data "start" .null, jgetD data "end" .null)
      else none
    cloudThreshold := cloudThreshold
    ndvi := ndvi }

/-- The tiles handler (POST /tiles), translated statement by statement from
MONITORING.py.  Returns the HTTP outcome, the list of queries issued to the
remote service, and the module state after the request. -/
def tiles (env : EEEnv) (ee : TilesEE) (data : List (String × JsonVal)) :
    HandlerResult × List TilesQuery × EEEnv :=
  if !(env.EE_AVAILABLE && env.EE_INITIALIZED) then
    (.response 500 (errBody ("EE not initialized: " ++ pyStrOpt env.EE_INIT_ERROR)), [], env)
  else
    let geom := jgetD data "geometry" .null
    let layer := jgetD data "layer" (.str "RGB")
    match pyInt (jgetD data "cloud_threshold" (.int 20)) with
    | .error e => (.uncaught e, [], env)
    | .ok cloudThreshold =>
      match pyInt (jgetD data "buffer" (.int 500)) with
      | .error e => (.uncaught e, [], env)
      | .ok bufferMeters =>
        if !truthy geom then
          (.response 400 (errBody "No geometry provided"), [], env)
        else
          match ee.geomBuild geom bufferMeters with
          | .error e => (.response 500 (errBody e), [], env)
          | .ok _ =>
            match pyUpper layer with
            | .error e => (.response 500 (errBody e), [], env)
            | .ok layerUp =>
              let q := tilesQuery env data cloudThreshold bufferMeters (layerUp == "NDVI")
              match ee.getMapId q with
              | .error _ =>
                (.response 500 (errBody "Could not generate tile URL from EE"), [q], env)
              | .ok url => (.response 200 (okTile url), [q], env)

/-- The server-side query built by the timeseries handler. -/
structure TSQuery where
  geometry : JsonVal
  collId : String
  dateFilter : Option (JsonVal × JsonVal)
  cloudThreshold : Int
  scale : Int

/-- One remote image as the timeseries handler observes it: its
system:time_start timestamp and the mean-NDVI aggregate computed over the
request geometry (a number, or null where the aggregate is absent). -/
structure EEImage where
  timeStart : Int
  meanNdvi : JsonVal

/-- The remote Earth-Engine service as seen by the timeseries handler:
geometry construction may raise, the collection query yields the matching
images or raises, and fmtDate is ee.Date(...).format applied to a
system:time_start value. -/
structure TimeseriesEE where
  geomBuild : JsonVal → Except String Unit
  images : TSQuery → Except String (List EEImage)
  fmtDate : Int → String

/-- The query the timeseries handler issues. -/
def tsQuery (env : EEEnv) (data : List (String × JsonVal))
    (scale cloudThreshold : Int) : TSQuery :=
  { geometry := jgetD data "geometry" .null
    collId := collectionId env
    dateFilter :=
      if truthy (jgetD data "start" .null) && truthy (jgetD data "end" .null) then
        some (jgetD data "start" .null, jgetD data "end" .null)
      else none
    cloudThreshold := cloudThreshold
    scale := scale }

/-- Acquisition-time order on images, the sort key of
sort applied to system:time_start. -/
def timeLe (a b : EEImage) : Prop :=
  a.timeStart ≤ b.timeStart

instance : DecidableRel timeLe := fun a b =>
  inferInstanceAs (Decidable (a.timeStart ≤ b.timeStart))

instance : IsTotal EEImage timeLe := ⟨fun a b => Int.le_total a.timeStart b.timeStart⟩

instance : IsTrans EEImage timeLe := ⟨fun _ _ _ h h' => le_trans h h'⟩

/-- The collection pipeline sort followed by limit 256, from the line
stats_coll = coll.map(add_ndvi_stats).sort(system:time_start).limit(256). -/
def sortLimit (imgs : List EEImage) : List EEImage :=
  (List.insertionSort timeLe imgs).take 256

/-- One element of the response series: a date paired with the mean-NDVI value
of the same image. -/
def seriesEntry (ee : TimeseriesEE) (img : EEImage) : JsonVal :=
  .obj [("date", .str (ee.fmtDate img.timeStart)), ("value", img.meanNdvi)]

/-- The timeseries handler (POST /timeseries), translated statement by
statement from MONITORING.py.  Returns the HTTP outcome, the list of queries
issued to the remote service, and the module state after the request. -/
def timeseries (env : EEEnv) (ee : TimeseriesEE) (data : List (String × JsonVal)) :
    HandlerResult × List TSQuery × EEEnv :=
  if !(env.EE_AVAILABLE && env.EE_INITIALIZED) then
    (.response 500 (errBody ("EE not initialized: " ++ pyStrOpt env.EE_INIT_ERROR)), [], env)
  else
    let geom := jgetD data "geometry" .null
    match pyInt (jgetD data "scale" (.int 10)) with
    | .error e => (.uncaught e, [], env)
    | .ok scale =>
      match pyInt (jgetD data "cloud_threshold" (.int 20)) with
      | .error e => (.uncaught e, [], env)
      | .ok cloudThreshold =>
        if !truthy geom then
          (.response 400 (errBody "No geometry provided"), [], env)
        else
          match ee.geomBuild geom with
          | .error e => (.response 500 (errBody e), [], env)
          | .ok _ =>
            let q := tsQuery env data scale cloudThreshold
            match ee.images q with
            | .error e => (.response 500 (errBody e), [q], env)
            | .ok imgs =>
              let limited := sortLimit imgs
              let dates := limited.map (fun i => ee.fmtDate i.timeStart)
              let values := limited.map (fun i => i.meanNdvi)
              let series :=
                (dates.zip values).map
                  (fun dv => JsonVal.obj [("date", .str dv.1), ("value", dv.2)])
              (.response 200 (okSeries series), [q], env)

/-- The parts of the ee module used by init_ee_from_env: default-credential
initialization, service-account initialization, and the temporary key file
written from inline JSON credentials. -/
structure InitEE where
  defaultInit : Except String Unit
  saInit : String → String → Except String Unit
  tempName : String → String

/-- Python truthiness of an optional environment-variable string. -/
def strTruthy : Option String → Bool
  | some s => !(s == "")
  | none => false

/-- The startup routine init_ee_from_env, translated from MONITORING.py: it is
the only code that assigns the module flags EE_INITIALIZED and EE_INIT_ERROR.
Returns the updated module state and either the (ok, message) pair or the
exception escaping the function.  In the branch where default initialization
failed and no service account is set, the source reads the name default_err,
which Python 3 unbinds at the end of the except suite: that branch raises
UnboundLocalError before assigning EE_INIT_ERROR, modelled as the error
outcome with the state unchanged. -/
def init_ee_from_env (env : EEEnv) (ee : InitEE) : EEEnv × Except String (Bool × String) :=
  match ee.defaultInit with
  | .ok _ =>
    ({ env with EE_INITIALIZED := true }, .ok (true, "initialized with default credentials"))
  | .error _ =>
    let sa := env.osEnv "EE_SERVICE_ACCOUNT"
    let keyPath := env.osEnv "EE_CREDENTIALS_FILE"
    let keyJson := env.osEnv "EE_PRIVATE_KEY_JSON"
    if strTruthy sa then
      let keyPath2 :=
        if strTruthy keyJson && !(strTruthy keyPath) then
          some (ee.tempName (keyJson.getD ""))
        else keyPath
      if !(strTruthy keyPath2) then
        (env, .ok (false, "EE_SERVICE_ACCOUNT set but no credentials file provided"))
      else
        match ee.saInit (sa.getD "") (keyPath2.getD "") with
        | .ok _ =>
          ({ env with EE_INITIALIZED := true }, .ok (true,
            "initialized with service account " ++ sa.getD ""))
        | .error e =>
          ({ env with EE_INIT_ERROR := some e }, .ok (false,
            "service-account init failed: " ++ e))
    else
      (env, .error "UnboundLocalError: local variable default_err referenced before assignment")

/-- The module-level startup code around init_ee_from_env (the try block that
imports ee, calls the routine, copies its ok flag into EE_INITIALIZED and its
message into EE_INIT_ERROR on failure, and on any escaping exception sets
EE_AVAILABLE back to false).  importOk models whether the import itself
succeeded. -/
def startup (osE : String → Option String) (ee : InitEE) (importOk : Bool) : EEEnv :=
  let env0 : EEEnv := ⟨false, false, none, osE⟩
  if !importOk then env0
  else
    let env1 := { env0 with EE_AVAILABLE := true }
    match init_ee_from_env env1 ee with
    | (env2, .ok (ok, msg)) =>
      let env3 := { env2 with EE_INITIALIZED := ok }
      if !ok then { env3 with EE_INIT_ERROR := some msg } else env3
    | (env2, .error _) => { env2 with EE_AVAILABLE := false }

/-- A response whose HTTP code lies outside the 2xx range and whose JSON body
is the uniform error envelope: status is the string error, together with an
error message. -/
def errorEnvelope (r : HandlerResult) : Prop :=
  ∃ c b, r = .response c b ∧ (c < 200 ∨ 299 < c) ∧
    jfield b "status" = some (.str "error") ∧ ∃ m, jfield b "error" = some (.str m)

/-- A 200 response whose body carries status ok. -/
def okResponse (r : HandlerResult) : Prop :=
  ∃ b, r = .response 200 b ∧ jfield b "status" = some (.str "ok")

/-- A JSON value that is a number or null, the allowed shapes of a series
value. -/
def numOrNull : JsonVal → Bool
  | .null => true
  | .int _ => true
  | .num _ => true
  | _ => false

/-! Concrete fixtures used by witnesses and counterexamples. -/

/-- A module state in which Earth Engine initialized successfully at startup. -/
def envOk : EEEnv := ⟨true, true, none, fun _ => none⟩

/-- A module state in which default initialization failed at startup. -/
def envUninit : EEEnv := ⟨true, false, some "boom", fun _ => none⟩

/-- A remote service that accepts every tiles request. -/
def tilesEE1 : TilesEE := ⟨fun _ _ => .ok (), fun _ => .ok "https://earthengine/tiles/x"⟩

/-- A remote service that accepts every timeseries request, matching two
images whose timestamps arrive out of acquisition order. -/
def tsEE1 : TimeseriesEE :=
  ⟨fun _ => .ok (), fun _ => .ok [⟨5, .null⟩, ⟨3, .int 1⟩], fun _ => "1970-01-01"⟩

/-- An ee module whose default-credential initialization succeeds. -/
def initEE1 : InitEE := ⟨.ok (), fun _ _ => .ok (), fun _ => "key.json"⟩

/-- An ee module whose default-credential initialization raises. -/
def initEE2 : InitEE := ⟨.error "boom", fun _ _ => .ok (), fun _ => "key.json"⟩

/-- A request body holding only a geometry. -/
def geomData : List (String × JsonVal) := [("geometry", .str "poly")]

/-- A request body with a geometry and a malformed cloud_threshold field. -/
def cexData : List (String × JsonVal) :=
  [("geometry", .str "poly"), ("cloud_threshold", .str "abc")]

/-- The tiles handler applies the Python int() builtin to these two optional
fields before its try block; this predicate states that at least one of the
two conversions raises. -/
def intArgsFailT (data : List (String × JsonVal)) : Prop :=
  (∃ e, pyInt (jgetD data "cloud_threshold" (.int 20)) = .error e) ∨
  (∃ e, pyInt (jgetD data "buffer" (.int 500)) = .error e)

/-- Likewise for the timeseries handler, whose optional integer fields are
scale and cloud_threshold. -/
def intArgsFailS (data : List (String × JsonVal)) : Prop :=
  (∃ e, pyInt (jgetD data "scale" (.int 10)) = .error e) ∨
  (∃ e, pyInt (jgetD data "cloud_threshold" (.int 20)) = .error e)

/-! General lemmas about the envelopes. -/

theorem errorEnvelope_errBody (c : Nat) (m : String) (h : c < 200 ∨ 299 < c) :
    errorEnvelope (.response c (errBody m)) :=
  ⟨c, errBody m, rfl, h, rfl, m, rfl⟩

theorem okResponse_okTile (u : String) : okResponse (.response 200 (okTile u)) :=
  ⟨okTile u, rfl, rfl⟩

theorem okResponse_okSeries (l : List JsonVal) : okResponse (.response 200 (okSeries l)) :=
  ⟨okSeries l, rfl, rfl⟩

/-! Lemmas enumerating the handler branches. -/

theorem tiles_response_of_ok (env : EEEnv) (eeT : TilesEE) (data : List (String × JsonVal))
    (ct buf : Int)
    (hct : pyInt (jgetD data "cloud_threshold" (.int 20)) = .ok ct)
    (hbuf : pyInt (jgetD data "buffer" (.int 500)) = .ok buf) :
    okResponse (tiles env eeT data).1 ∨ errorEnvelope (tiles env eeT data).1 := by
  simp only [tiles, hct, hbuf]
  repeat' split
  all_goals first
    | exact Or.inl (okResponse_okTile _)
    | exact Or.inr (errorEnvelope_errBody _ _ (by decide))

theorem timeseries_response_of_ok (env : EEEnv) (eeS : TimeseriesEE)
    (data : List (String × JsonVal)) (sc ct : Int)
    (hsc : pyInt (jgetD data "scale" (.int 10)) = .ok sc)
    (hct : pyInt (jgetD data "cloud_threshold" (.int 20)) = .ok ct) :
    okResponse (timeseries env eeS data).1 ∨ errorEnvelope (timeseries env eeS data).1 := by
  simp only [timeseries, hsc, hct]
  repeat' split
  all_goals first
    | exact Or.inl (okResponse_okSeries _)
    | exact Or.inr (errorEnvelope_errBody _ _ (by decide))

theorem tiles_calls_le_one (env : EEEnv) (eeT : TilesEE) (data : List (String × JsonVal)) :
    (tiles env eeT data).2.1.length ≤ 1 := by
  simp only [tiles]
  repeat' split
  all_goals simp

theorem timeseries_calls_le_one (env : EEEnv) (eeS : TimeseriesEE)
    (data : List (String × JsonVal)) :
    (timeseries env eeS data).2.1.length ≤ 1 := by
  simp only [timeseries]
  repeat' split
  all_goals simp

theorem tiles_log_dateFilter (env : EEEnv) (eeT : TilesEE) (data : List (String × JsonVal))
    (hse : (truthy (jgetD data "start" .null) && truthy (jgetD data "end" .null)) = false) :
    ∀ q ∈ (tiles env eeT data).2.1, q.dateFilter = none := by
  intro q hq
  simp only [tiles] at hq
  repeat' split at hq
  all_goals simp only [List.mem_singleton, List.not_mem_nil] at hq
  all_goals (subst hq; simp [tilesQuery, hse])

theorem timeseries_log_dateFilter (env : EEEnv) (eeS : TimeseriesEE)
    (data : List (String × JsonVal))
    (hse : (truthy (jgetD data "start" .null) && truthy (jgetD data "end" .null)) = false) :
    ∀ q ∈ (timeseries env eeS data).2.1, q.dateFilter = none := by
  intro q hq
  simp only [timeseries] at hq
  repeat' split at hq
  all_goals simp only [List.mem_singleton, List.not_mem_nil] at hq
  all_goals (subst hq; simp [tsQuery, hse])

/-! Claim theorems. -/

/-- Claim C3: while the external service is unavailable or its initialization
did not succeed (EE_AVAILABLE false or EE_INITIALIZED false), both handlers
return HTTP 500 with the error envelope, for every request body whatsoever
(so before reading or validating any part of the body), and issue no external
call. -/
theorem claim_C3 (env : EEEnv) (eeT : TilesEE) (eeS : TimeseriesEE)
    (data : List (String × JsonVal))
    (h : env.EE_AVAILABLE = false ∨ env.EE_INITIALIZED = false) :
    tiles env eeT data =
      (.response 500 (errBody ("EE not initialized: " ++ pyStrOpt env.EE_INIT_ERROR)), [], env) ∧
    timeseries env eeS data =
      (.response 500 (errBody ("EE not initialized: " ++ pyStrOpt env.EE_INIT_ERROR)), [], env) := by
  have hfalse : (env.EE_AVAILABLE && env.EE_INITIALIZED) = false := by
    rcases h with h | h <;> simp [h]
  constructor
  · simp [tiles, hfalse]
  · simp [timeseries, hfalse]

/-- Claim C3 witness: a concrete uninitialized module state and concrete
request bodies. -/
theorem claim_C3_witness :
    (envUninit.EE_AVAILABLE = false ∨ envUninit.EE_INITIALIZED = false) ∧
    tiles envUninit tilesEE1 geomData =
      (.response 500 (errBody "EE not initialized: boom"), [], envUninit) ∧
    timeseries envUninit tsEE1 geomData =
      (.response 500 (errBody "EE not initialized: boom"), [], envUninit) :=
  ⟨Or.inr rfl,
   (claim_C3 envUninit tilesEE1 tsEE1 geomData (Or.inr rfl)).1,
   (claim_C3 envUninit tilesEE1 tsEE1 geomData (Or.inr rfl)).2⟩

/-- Claim C7: each handler leaves the module-level flags unchanged on every
request (they only read EE_AVAILABLE, EE_INITIALIZED and EE_INIT_ERROR),
while the flags are written at startup: init_ee_from_env sets EE_INITIALIZED
when default initialization succeeds, and in the branch where default
initialization failed with no service account set it raises (the unbound
default_err) without touching the flags, whereupon the module-level handler
leaves EE_AVAILABLE false and EE_INIT_ERROR unset. -/
theorem claim_C7 (env : EEEnv) (eeT : TilesEE) (eeS : TimeseriesEE) (ie : InitEE)
    (osE : String → Option String) (data : List (String × JsonVal)) :
    (tiles env eeT data).2.2 = env ∧ (timeseries env eeS data).2.2 = env ∧
    (ie.defaultInit = .ok () → (init_ee_from_env env ie).1.EE_INITIALIZED = true) ∧
    (∀ e, ie.defaultInit = .error e →
      strTruthy (env.osEnv "EE_SERVICE_ACCOUNT") = false →
      (init_ee_from_env env ie).1 = env ∧
      ∃ m, (init_ee_from_env env ie).2 = .error m) ∧
    (∀ e, ie.defaultInit = .error e → strTruthy (osE "EE_SERVICE_ACCOUNT") = false →
      startup osE ie true = ⟨false, false, none, osE⟩) := by
  refine ⟨?_, ?_, ?_, ?_, ?_⟩
  · simp only [tiles]
    repeat' split
    all_goals rfl
  · simp only [timeseries]
    repeat' split
    all_goals rfl
  · intro h
    simp [init_ee_from_env, h]
  · intro e he hsa
    refine ⟨?_, ?_⟩ <;> simp [init_ee_from_env, he, hsa]
  · intro e he hsa
    simp [startup, init_ee_from_env, he, hsa]

/-- Claim C7 witness: concrete module state, remote services, request body, a
default-initialization success, and a default-initialization failure with no
service account configured. -/
theorem claim_C7_witness :
    (tiles envOk tilesEE1 geomData).2.2 = envOk ∧
    (timeseries envOk tsEE1 geomData).2.2 = envOk ∧
    (init_ee_from_env envOk initEE1).1.EE_INITIALIZED = true ∧
    ((init_ee_from_env envOk initEE2).1 = envOk ∧
      ∃ m, (init_ee_from_env envOk initEE2).2 = .error m) ∧
    startup (fun _ => none) initEE2 true = ⟨false, false, none, fun _ => none⟩ :=
  ⟨(claim_C7 envOk tilesEE1 tsEE1 initEE1 (fun _ => none) geomData).1,
   (claim_C7 envOk tilesEE1 tsEE1 initEE1 (fun _ => none) geomData).2.1,
   (claim_C7 envOk tilesEE1 tsEE1 initEE1 (fun _ => none) geomData).2.2.1 rfl,
   (claim_C7 envOk tilesEE1 tsEE1 initEE2 (fun _ => none) geomData).2.2.2.1 "boom" rfl rfl,
   (claim_C7 envOk tilesEE1 tsEE1 initEE2 (fun _ => none) geomData).2.2.2.2 "boom" rfl rfl⟩

/-- Claim C2 counterexample: a POST /tiles request whose body lacks a
geometry, sent while the module is uninitialized, is answered with HTTP 500,
not with the claimed HTTP 400: the initialization check runs before the
geometry check. -/
theorem claim_C2_counterexample :
    (tiles envUninit tilesEE1 []).1 = .response 500 (errBody "EE not initialized: boom") ∧
    ∀ b, (tiles envUninit tilesEE1 []).1 ≠ .response 400 b := by
  refine ⟨rfl, fun b h => ?_⟩
  rw [show (tiles envUninit tilesEE1 []).1
        = .response 500 (errBody "EE not initialized: boom") from rfl] at h
  injection h with h1 h2
  exact absurd h1 (by decide)

/-- Claim C2 as amended: provided the external service is available and
initialized and the optional integer fields parse (they raise before the
geometry check otherwise), a request whose geometry is absent or falsy is
answered by either handler with HTTP 400 and the error envelope, with no
external call issued. -/
theorem claim_C2_amended (env : EEEnv) (eeT : TilesEE) (eeS : TimeseriesEE)
    (data : List (String × JsonVal)) (ct buf sc : Int)
    (hA : env.EE_AVAILABLE = true) (hI : env.EE_INITIALIZED = true)
    (hct : pyInt (jgetD data "cloud_threshold" (.int 20)) = .ok ct)
    (hbuf : pyInt (jgetD data "buffer" (.int 500)) = .ok buf)
    (hsc : pyInt (jgetD data "scale" (.int 10)) = .ok sc)
    (hg : truthy (jgetD data "geometry" .null) = false) :
    tiles env eeT data = (.response 400 (errBody "No geometry provided"), [], env) ∧
    timeseries env eeS data = (.response 400 (errBody "No geometry provided"), [], env) := by
  constructor
  · simp [tiles, hA, hI, hct, hbuf, hg]
  · simp [timeseries, hA, hI, hct, hsc, hg]

/-- Claim C2 witness: the amended claim at a concrete initialized state and
an empty request body. -/
theorem claim_C2_witness :
    tiles envOk tilesEE1 [] = (.response 400 (errBody "No geometry provided"), [], envOk) ∧
    timeseries envOk tsEE1 [] = (.response 400 (errBody "No geometry provided"), [], envOk) :=
  claim_C2_amended envOk tilesEE1 tsEE1 [] 20 500 10 rfl rfl rfl rfl rfl rfl

/-- Claim C4: on a request that reaches the external call, the issued tiles
query carries exactly the parsed cloud threshold and buffer; when the
cloud_threshold field is absent the threshold is 20, when the buffer field is
absent the clip buffer is 500 meters, and when either field holds an integer
that integer is forwarded. -/
theorem claim_C4 (env : EEEnv) (eeT : TilesEE) (data : List (String × JsonVal))
    (ct buf : Int) (layerUp : String)
    (hA : env.EE_AVAILABLE = true) (hI : env.EE_INITIALIZED = true)
    (hct : pyInt (jgetD data "cloud_threshold" (.int 20)) = .ok ct)
    (hbuf : pyInt (jgetD data "buffer" (.int 500)) = .ok buf)
    (hg : truthy (jgetD data "geometry" .null) = true)
    (hgb : eeT.geomBuild (jgetD data "geometry" .null) buf = .ok ())
    (hup : pyUpper (jgetD data "layer" (.str "RGB")) = .ok layerUp) :
    (tiles env eeT data).2.1 = [tilesQuery env data ct buf (layerUp == "NDVI")] ∧
    (jget data "cloud_threshold" = none →
      (tilesQuery env data ct buf (layerUp == "NDVI")).cloudThreshold = 20) ∧
    (∀ n : Int, jget data "cloud_threshold" = some (.int n) →
      (tilesQuery env data ct buf (layerUp == "NDVI")).cloudThreshold = n) ∧
    (jget data "buffer" = none →
      (tilesQuery env data ct buf (layerUp == "NDVI")).bufferMeters = 500) ∧
    (∀ n : Int, jget data "buffer" = some (.int n) →
      (tilesQuery env data ct buf (layerUp == "NDVI")).bufferMeters = n) := by
  refine ⟨?_, ?_, ?_, ?_, ?_⟩
  · rcases h : eeT.getMapId (tilesQuery env data ct buf (layerUp == "NDVI")) with e | u <;>
      simp [tiles, hA, hI, hct, hbuf, hg, hgb, hup, h]
  · intro h0
    have h20 : pyInt (jgetD data "cloud_threshold" (.int 20)) = .ok 20 := by
      rw [jgetD, h0]; rfl
    exact (Except.ok.inj (h20.symm.trans hct)).symm
  · intro n h0
    have hn : pyInt (jgetD data "cloud_threshold" (.int 20)) = .ok n := by
      rw [jgetD, h0]; rfl
    exact (Except.ok.inj (hn.symm.trans hct)).symm
  · intro h0
    have h500 : pyInt (jgetD data "buffer" (.int 500)) = .ok 500 := by
      rw [jgetD, h0]; rfl
    exact (Except.ok.inj (h500.symm.trans hbuf)).symm
  · intro n h0
    have hn : pyInt (jgetD data "buffer" (.int 500)) = .ok n := by
      rw [jgetD, h0]; rfl
    exact (Except.ok.inj (hn.symm.trans hbuf)).symm

/-- Claim C4 witness: a request that omits both optional fields issues the
query with threshold 20 and buffer 500. -/
theorem claim_C4_witness :
    (tiles envOk tilesEE1 geomData).2.1 = [tilesQuery envOk geomData 20 500 false] ∧
    (tilesQuery envOk geomData 20 500 false).cloudThreshold = 20 ∧
    (tilesQuery envOk geomData 20 500 false).bufferMeters = 500 :=
  have h := claim_C4 envOk tilesEE1 geomData 20 500 "RGB" rfl rfl rfl rfl rfl rfl rfl
  ⟨h.1, h.2.1 rfl, h.2.2.2.1 rfl⟩

/-- Claim C10: when the layer field is a string (or absent, defaulting to the
string RGB), the tiles handler issues exactly one query whose composite
branch is NDVI precisely when the uppercased layer equals NDVI; any other
string selects the RGB composite rather than an error, the outcome being the
external call's tile response or its failure envelope. -/
theorem claim_C10 (env : EEEnv) (eeT : TilesEE) (data : List (String × JsonVal))
    (ct buf : Int) (s : String)
    (hA : env.EE_AVAILABLE = true) (hI : env.EE_INITIALIZED = true)
    (hct : pyInt (jgetD data "cloud_threshold" (.int 20)) = .ok ct)
    (hbuf : pyInt (jgetD data "buffer" (.int 500)) = .ok buf)
    (hg : truthy (jgetD data "geometry" .null) = true)
    (hgb : eeT.geomBuild (jgetD data "geometry" .null) buf = .ok ())
    (hl : jgetD data "layer" (.str "RGB") = .str s) :
    (tiles env eeT data).2.1 = [tilesQuery env data ct buf (upperStr s == "NDVI")] ∧
    ((tiles env eeT data).1 = .response 500 (errBody "Could not generate tile URL from EE") ∨
      ∃ u, (tiles env eeT data).1 = .response 200 (okTile u)) := by
  have hup : pyUpper (jgetD data "layer" (.str "RGB")) = .ok (upperStr s) := by
    rw [hl]; rfl
  rcases h : eeT.getMapId (tilesQuery env data ct buf (upperStr s == "NDVI")) with e | u
  · exact ⟨by simp [tiles, hA, hI, hct, hbuf, hg, hgb, hup, h],
      Or.inl (by simp [tiles, hA, hI, hct, hbuf, hg, hgb, hup, h])⟩
  · exact ⟨by simp [tiles, hA, hI, hct, hbuf, hg, hgb, hup, h],
      Or.inr ⟨u, by simp [tiles, hA, hI, hct, hbuf, hg, hgb, hup, h]⟩⟩

/-- Claim C10 witness: the layer string ndvi, uppercased, selects the NDVI
branch of the issued query. -/
theorem claim_C10_witness :
    (tiles envOk tilesEE1 [("geometry", .str "poly"), ("layer", .str "ndvi")]).2.1 =
      [tilesQuery envOk [("geometry", .str "poly"), ("layer", .str "ndvi")] 20 500 true] ∧
    ((tiles envOk tilesEE1 [("geometry", .str "poly"), ("layer", .str "ndvi")]).1 =
        .response 500 (errBody "Could not generate tile URL from EE") ∨
      ∃ u, (tiles envOk tilesEE1 [("geometry", .str "poly"), ("layer", .str "ndvi")]).1 =
        .response 200 (okTile u)) :=
  claim_C10 envOk tilesEE1 [("geometry", .str "poly"), ("layer", .str "ndvi")]
    20 500 "ndvi" rfl rfl rfl rfl rfl rfl rfl

/-- Claim C9: when start or end is absent or empty (so their conjunction of
truthiness is false), neither handler rejects the request for that reason:
every query issued to the external service carries no date filter, and the
outcome is a normal ok response or error envelope. -/
theorem claim_C9 (env : EEEnv) (eeT : TilesEE) (eeS : TimeseriesEE)
    (data : List (String × JsonVal)) (ct buf sc : Int)
    (hct : pyInt (jgetD data "cloud_threshold" (.int 20)) = .ok ct)
    (hbuf : pyInt (jgetD data "buffer" (.int 500)) = .ok buf)
    (hsc : pyInt (jgetD data "scale" (.int 10)) = .ok sc)
    (hse : (truthy (jgetD data "start" .null) && truthy (jgetD data "end" .null)) = false) :
    (∀ q ∈ (tiles env eeT data).2.1, q.dateFilter = none) ∧
    (okResponse (tiles env eeT data).1 ∨ errorEnvelope (tiles env eeT data).1) ∧
    (∀ q ∈ (timeseries env eeS data).2.1, q.dateFilter = none) ∧
    (okResponse (timeseries env eeS data).1 ∨ errorEnvelope (timeseries env eeS data).1) :=
  ⟨tiles_log_dateFilter env eeT data hse,
   tiles_response_of_ok env eeT data ct buf hct hbuf,
   timeseries_log_dateFilter env eeS data hse,
   timeseries_response_of_ok env eeS data sc ct hsc hct⟩

/-- Claim C9 witness: a request with a geometry and no dates, against a
remote service that accepts it. -/
theorem claim_C9_witness :
    (∀ q ∈ (tiles envOk tilesEE1 geomData).2.1, q.dateFilter = none) ∧
    (okResponse (tiles envOk tilesEE1 geomData).1 ∨
      errorEnvelope (tiles envOk tilesEE1 geomData).1) ∧
    (∀ q ∈ (timeseries envOk tsEE1 geomData).2.1, q.dateFilter = none) ∧
    (okResponse (timeseries envOk tsEE1 geomData).1 ∨
      errorEnvelope (timeseries envOk tsEE1 geomData).1) :=
  claim_C9 envOk tilesEE1 tsEE1 geomData 20 500 10 rfl rfl rfl rfl

/-- Claim C1 counterexample: a failing request (malformed cloud_threshold,
with a geometry present and the service initialized) does not produce the
error-status JSON envelope: the int() conversion raises before the protected
region, so the exception escapes the handler. -/
theorem claim_C1_counterexample :
    (tiles envOk tilesEE1 cexData).1 = .uncaught "invalid literal for int() with base 10: abc" ∧
    ¬ errorEnvelope (tiles envOk tilesEE1 cexData).1 := by
  refine ⟨rfl, ?_⟩
  rintro ⟨c, b, hr, -, -⟩
  rw [show (tiles envOk tilesEE1 cexData).1
      = .uncaught "invalid literal for int() with base 10: abc" from rfl] at hr
  cases hr

/-- Claim C1 as amended: whenever the optional integer fields parse, every
outcome of either handler is the ok response or an error envelope (status
error, a message, non-2xx code); when the service checks pass but an optional
integer field is malformed, the int() exception escapes the handler
uncaught (the framework default, not the JSON envelope); in all cases at
most one external call is issued, so nothing is retried. -/
theorem claim_C1_amended (env : EEEnv) (eeT : TilesEE) (eeS : TimeseriesEE)
    (data : List (String × JsonVal)) :
    (¬ intArgsFailT data →
      okResponse (tiles env eeT data).1 ∨ errorEnvelope (tiles env eeT data).1) ∧
    (env.EE_AVAILABLE = true → env.EE_INITIALIZED = true → intArgsFailT data →
      ∃ m, (tiles env eeT data).1 = .uncaught m) ∧
    (tiles env eeT data).2.1.length ≤ 1 ∧
    (¬ intArgsFailS data →
      okResponse (timeseries env eeS data).1 ∨ errorEnvelope (timeseries env eeS data).1) ∧
    (env.EE_AVAILABLE = true → env.EE_INITIALIZED = true → intArgsFailS data →
      ∃ m, (timeseries env eeS data).1 = .uncaught m) ∧
    (timeseries env eeS data).2.1.length ≤ 1 := by
  refine ⟨?_, ?_, tiles_calls_le_one env eeT data, ?_, ?_,
    timeseries_calls_le_one env eeS data⟩
  · intro hni
    rcases h1 : pyInt (jgetD data "cloud_threshold" (.int 20)) with e | ct
    · exact absurd (Or.inl ⟨e, h1⟩) hni
    rcases h2 : pyInt (jgetD data "buffer" (.int 500)) with e | buf
    · exact absurd (Or.inr ⟨e, h2⟩) hni
    exact tiles_response_of_ok env eeT data ct buf h1 h2
  · intro hA hI hf
    rcases h1 : pyInt (jgetD data "cloud_threshold" (.int 20)) with e | ct
    · exact ⟨e, by simp [tiles, hA, hI, h1]⟩
    rcases hf with ⟨e, he⟩ | ⟨e, he⟩
    · rw [h1] at he; cases he
    · exact ⟨e, by simp [tiles, hA, hI, h1, he]⟩
  · intro hni
    rcases h1 : pyInt (jgetD data "scale" (.int 10)) with e | sc
    · exact absurd (Or.inl ⟨e, h1⟩) hni
    rcases h2 : pyInt (jgetD data "cloud_threshold" (.int 20)) with e | ct
    · exact absurd (Or.inr ⟨e, h2⟩) hni
    exact timeseries_response_of_ok env eeS data sc ct h1 h2
  · intro hA hI hf
    rcases h1 : pyInt (jgetD data "scale" (.int 10)) with e | sc
    · exact ⟨e, by simp [timeseries, hA, hI, h1]⟩
    rcases hf with ⟨e, he⟩ | ⟨e, he⟩
    · rw [h1] at he; cases he
    · exact ⟨e, by simp [timeseries, hA, hI, h1, he]⟩

/-- Claim C1 witness: the amended claim instantiated at an initialized state,
a well-formed request on the tiles side and the malformed request on the
timeseries side. -/
theorem claim_C1_witness :
    (okResponse (tiles envOk tilesEE1 geomData).1 ∨
      errorEnvelope (tiles envOk tilesEE1 geomData).1) ∧
    (tiles envOk tilesEE1 geomData).2.1.length ≤ 1 ∧
    (∃ m, (timeseries envOk tsEE1 cexData).1 = .uncaught m) ∧
    (timeseries envOk tsEE1 cexData).2.1.length ≤ 1 :=
  ⟨(claim_C1_amended envOk tilesEE1 tsEE1 geomData).1
      (by rintro (⟨e, he⟩ | ⟨e, he⟩) <;> exact nomatch he),
   (claim_C1_amended envOk tilesEE1 tsEE1 geomData).2.2.1,
   (claim_C1_amended envOk tilesEE1 tsEE1 cexData).2.2.2.2.1 rfl rfl
     (Or.inr ⟨"invalid literal for int() with base 10: abc", rfl⟩),
   (claim_C1_amended envOk tilesEE1 tsEE1 cexData).2.2.2.2.2⟩

theorem timeseries_ok_eq (env : EEEnv) (eeS : TimeseriesEE)
    (data : List (String × JsonVal)) (sc ct : Int) (imgs : List EEImage)
    (hA : env.EE_AVAILABLE = true) (hI : env.EE_INITIALIZED = true)
    (hsc : pyInt (jgetD data "scale" (.int 10)) = .ok sc)
    (hct : pyInt (jgetD data "cloud_threshold" (.int 20)) = .ok ct)
    (hg : truthy (jgetD data "geometry" .null) = true)
    (hgb : eeS.geomBuild (jgetD data "geometry" .null) = .ok ())
    (him : eeS.images (tsQuery env data sc ct) = .ok imgs) :
    timeseries env eeS data =
      (.response 200 (okSeries ((sortLimit imgs).map (seriesEntry eeS))),
       [tsQuery env data sc ct], env) := by
  simp [timeseries, hA, hI, hsc, hct, hg, hgb, him, List.zip_map', seriesEntry, okSeries]

/-- Claim C5: a successful timeseries request is answered with status ok and
a series in which every element pairs the formatted acquisition date of one
image of the sorted, truncated collection with that same image's mean-NDVI
aggregate; when every aggregate is a number or null, so is every series
value. -/
theorem claim_C5 (env : EEEnv) (eeS : TimeseriesEE)
    (data : List (String × JsonVal)) (sc ct : Int) (imgs : List EEImage)
    (hA : env.EE_AVAILABLE = true) (hI : env.EE_INITIALIZED = true)
    (hsc : pyInt (jgetD data "scale" (.int 10)) = .ok sc)
    (hct : pyInt (jgetD data "cloud_threshold" (.int 20)) = .ok ct)
    (hg : truthy (jgetD data "geometry" .null) = true)
    (hgb : eeS.geomBuild (jgetD data "geometry" .null) = .ok ())
    (him : eeS.images (tsQuery env data sc ct) = .ok imgs) :
    (timeseries env eeS data).1 =
      .response 200 (okSeries ((sortLimit imgs).map (seriesEntry eeS))) ∧
    ((∀ i ∈ imgs, numOrNull i.meanNdvi = true) →
      ∀ j ∈ (sortLimit imgs).map (seriesEntry eeS),
        ∃ d v, j = .obj [("date", .str d), ("value", v)] ∧ numOrNull v = true) := by
  refine ⟨by rw [timeseries_ok_eq env eeS data sc ct imgs hA hI hsc hct hg hgb him], ?_⟩
  intro hall j hj
  rcases List.mem_map.mp hj with ⟨i, hi, rfl⟩
  refine ⟨eeS.fmtDate i.timeStart, i.meanNdvi, rfl, ?_⟩
  apply hall
  simp only [sortLimit] at hi
  exact (List.perm_insertionSort timeLe imgs).mem_iff.mp (List.take_subset _ _ hi)

/-- Claim C5 witness: a concrete successful request whose two images carry a
null and a numeric aggregate. -/
theorem claim_C5_witness :
    (timeseries envOk tsEE1 geomData).1 =
      .response 200 (okSeries ((sortLimit [⟨5, .null⟩, ⟨3, .int 1⟩]).map (seriesEntry tsEE1))) ∧
    (∀ j ∈ (sortLimit [⟨5, .null⟩, ⟨3, .int 1⟩]).map (seriesEntry tsEE1),
      ∃ d v, j = .obj [("date", .str d), ("value", v)] ∧ numOrNull v = true) :=
  have h := claim_C5 envOk tsEE1 geomData 10 20 [⟨5, .null⟩, ⟨3, .int 1⟩]
    rfl rfl rfl rfl rfl rfl rfl
  ⟨h.1, h.2 (by decide)⟩

/-- Claim C6: a successful timeseries response lists its images sorted by
the system time-start timestamp, so, the date formatting being monotone, the
formatted dates are nondecreasing from the first element to the last. -/
theorem claim_C6 (env : EEEnv) (eeS : TimeseriesEE)
    (data : List (String × JsonVal)) (sc ct : Int) (imgs : List EEImage)
    (hA : env.EE_AVAILABLE = true) (hI : env.EE_INITIALIZED = true)
    (hsc : pyInt (jgetD data "scale" (.int 10)) = .ok sc)
    (hct : pyInt (jgetD data "cloud_threshold" (.int 20)) = .ok ct)
    (hg : truthy (jgetD data "geometry" .null) = true)
    (hgb : eeS.geomBuild (jgetD data "geometry" .null) = .ok ())
    (him : eeS.images (tsQuery env data sc ct) = .ok imgs)
    (hmono : ∀ a b : Int, a ≤ b → eeS.fmtDate a ≤ eeS.fmtDate b) :
    (timeseries env eeS data).1 =
      .response 200 (okSeries ((sortLimit imgs).map (seriesEntry eeS))) ∧
    List.Pairwise (fun a b : EEImage => a.timeStart ≤ b.timeStart) (sortLimit imgs) ∧
    List.Pairwise (· ≤ ·) ((sortLimit imgs).map (fun i => eeS.fmtDate i.timeStart)) := by
  have hs : List.Pairwise timeLe (List.insertionSort timeLe imgs) :=
    List.sorted_insertionSort timeLe imgs
  have ht : List.Pairwise timeLe (sortLimit imgs) :=
    List.Pairwise.sublist (List.take_sublist _ _) hs
  refine ⟨by rw [timeseries_ok_eq env eeS data sc ct imgs hA hI hsc hct hg hgb him],
    ht, ?_⟩
  exact List.Pairwise.map _ (fun a b h => hmono _ _ h) ht

/-- Claim C6 witness: the two concrete images arrive out of order and come
back sorted, with nondecreasing formatted dates. -/
theorem claim_C6_witness :
    (timeseries envOk tsEE1 geomData).1 =
      .response 200 (okSeries ((sortLimit [⟨5, .null⟩, ⟨3, .int 1⟩]).map (seriesEntry tsEE1))) ∧
    List.Pairwise (fun a b : EEImage => a.timeStart ≤ b.timeStart)
      (sortLimit [⟨5, .null⟩, ⟨3, .int 1⟩]) ∧
    List.Pairwise (· ≤ ·)
      ((sortLimit [⟨5, .null⟩, ⟨3, .int 1⟩]).map (fun i => tsEE1.fmtDate i.timeStart)) :=
  claim_C6 envOk tsEE1 geomData 10 20 [⟨5, .null⟩, ⟨3, .int 1⟩]
    rfl rfl rfl rfl rfl rfl rfl (fun _ _ _ => le_refl _)

/-- Claim C8: every successful timeseries response carries a series of at
most 256 elements, the collection having been truncated to its first 256
images after the sort. -/
theorem claim_C8 (env : EEEnv) (eeS : TimeseriesEE) (data : List (String × JsonVal))
    (b : JsonVal) (h : (timeseries env eeS data).1 = .response 200 b) :
    ∃ l, jfield b "series" = some (.arr l) ∧ l.length ≤ 256 := by
  simp only [timeseries] at h
  repeat' split at h
  all_goals first
    | (cases h; done)
    | (cases h
       refine ⟨_, rfl, ?_⟩
       simp [sortLimit, List.length_take]
       try omega)

/-- Claim C8 witness: a concrete successful response whose series holds two
elements. -/
theorem claim_C8_witness :
    (timeseries envOk tsEE1 geomData).1 =
      .response 200 (okSeries [.obj [("date", .str "1970-01-01"), ("value", .int 1)],
                               .obj [("date", .str "1970-01-01"), ("value", .null)]]) ∧
    ∃ l, jfield (okSeries [.obj [("date", .str "1970-01-01"), ("value", .int 1)],
                           .obj [("date", .str "1970-01-01"), ("value", .null)]]) "series" =
        some (.arr l) ∧ l.length ≤ 256 :=
  ⟨rfl, claim_C8 envOk tsEE1 geomData _ rfl⟩

end MONITORING
